import Mathlib

/-!
Verification of the `vak-social-media` content pipeline against its
natural-language specification.  The Python source is shallowly embedded:
pure decision functions become Lean functions, the orchestrator's
database session becomes explicit state passing, and Python exceptions
become `Except`-style values threaded through the stage combinators.
-/

set_option linter.unusedVariables false

namespace VakBot

/-! ## Enumerations (vak_bot/enums.py) -/

/-- `PostStatus` from `vak_bot/enums.py`. -/
inductive PostStatus
  | draft
  | processing
  | review_ready
  | approved
  | posted
  | failed
  | cancelled
  deriving DecidableEq, Repr

/-- `SessionState` from `vak_bot/enums.py`. -/
inductive SessionState
  | idle
  | awaiting_photos
  | review_ready
  | awaiting_caption_edit
  | awaiting_approval
  | awaiting_post_confirmation
  | awaiting_video_selection
  deriving DecidableEq, Repr

/-- `JobStage` from `vak_bot/enums.py` (the stages used by the orchestrator). -/
inductive JobStage
  | intake
  | download
  | analyze
  | style
  | validate
  | video_generate
  | video_extend
  | caption
  | review
  | post
  | cleanup
  | token_refresh
  deriving DecidableEq, Repr

/-- `JobStatus` from `vak_bot/enums.py`. -/
inductive JobStatus
  | started
  | succeeded
  | failed
  deriving DecidableEq, Repr

/-! ## State machines (vak_bot/services/state_machine.py)

The Python module keeps a dict from current status to the set of legal
targets; `dict.get(current, set())` yields the empty set for keys that
are absent.  The dict `_ALLOWED_POST_TRANSITIONS` lists every
`PostStatus`; `_ALLOWED_SESSION_TRANSITIONS` has no entry for
`awaiting_photos` or `awaiting_video_selection`, so those two states map
to the empty set. -/

/-- `_ALLOWED_POST_TRANSITIONS` from `vak_bot/services/state_machine.py`. -/
def allowedPostTransitions : PostStatus → List PostStatus
  | .draft => [.processing, .cancelled]
  | .processing => [.review_ready, .failed, .cancelled]
  | .review_ready => [.approved, .processing, .cancelled]
  | .approved => [.posted, .failed, .cancelled]
  | .posted => []
  | .failed => [.processing, .cancelled]
  | .cancelled => []

/-- `_ALLOWED_SESSION_TRANSITIONS` from `vak_bot/services/state_machine.py`,
completed with `dict.get`'s empty default for the two states the dict
does not mention. -/
def allowedSessionTransitions : SessionState → List SessionState
  | .idle => [.review_ready, .awaiting_caption_edit, .awaiting_approval]
  | .review_ready => [.awaiting_caption_edit, .awaiting_approval, .idle]
  | .awaiting_caption_edit => [.review_ready, .idle]
  | .awaiting_approval => [.awaiting_post_confirmation, .review_ready, .idle]
  | .awaiting_post_confirmation => [.idle, .review_ready]
  | .awaiting_photos => []
  | .awaiting_video_selection => []

/-- `can_transition_post` from `vak_bot/services/state_machine.py`. -/
def can_transition_post (current target : PostStatus) : Bool :=
  target ∈ allowedPostTransitions current

/-- `can_transition_session` from `vak_bot/services/state_machine.py`. -/
def can_transition_session (current target : SessionState) : Bool :=
  target ∈ allowedSessionTransitions current

/-! ## Data model rows (vak_bot/db/models.py)

Only the columns the orchestrator reads or writes are embedded.  Nullable
columns become `Option`; JSON list columns become `Option (List String)`
(`none` for SQL NULL, `some []` for an empty JSON array — both falsy in
Python). -/

/-- `ProductPhoto` row (vak_bot/db/models.py). -/
structure ProductPhoto where
  id : ℕ
  photo_url : String
  is_primary : Bool
  deriving DecidableEq, Repr

/-- `Product` row (vak_bot/db/models.py); only the photo relationship is
needed by the media source resolver. -/
structure Product where
  id : ℕ
  photos : List ProductPhoto
  deriving DecidableEq, Repr

/-- `Post` row (vak_bot/db/models.py), restricted to the columns used by
`_resolve_saree_sources`, `run_generation_pipeline` and `run_publish`. -/
structure Post where
  id : ℕ
  product_id : Option ℤ := none
  product : Option Product := none
  reference_url : Option String := none
  reference_image : Option String := none
  source_caption : Option String := none
  source_hashtags : Option String := none
  source_image_urls : Option (List String) := none
  style_brief : Option ℕ := none
  styled_image : Option String := none
  caption : Option String := none
  hashtags : Option String := none
  alt_text : Option String := none
  instagram_post_id : Option String := none
  instagram_url : Option String := none
  posted_at : Option ℕ := none
  posted_by : Option String := none
  status : PostStatus := .draft
  media_type : String := "single"
  input_photo_urls : Option (List String) := none
  selected_variant_index : Option ℕ := none
  publish_idempotency_key : Option String := none
  error_code : Option String := none
  error_message : Option String := none
  video_url : Option String := none
  video_type : Option String := none
  start_frame_url : Option String := none
  video_duration : Option ℕ := none
  thumb_offset_ms : Option ℕ := none
  deriving DecidableEq, Repr

/-- `PostVariant` row (vak_bot/db/models.py). -/
structure PostVariantRow where
  id : ℕ
  post_id : ℕ
  variant_index : ℕ
  preview_url : String
  ssim_score : ℚ
  is_valid : Bool
  deriving DecidableEq, Repr

/-- `PostVariantItem` row (vak_bot/db/models.py). -/
structure PostVariantItemRow where
  variant_id : ℕ
  position : ℕ
  image_url : String
  deriving DecidableEq, Repr

/-! ## Python exceptions (vak_bot/pipeline/errors.py)

A raised exception is either a `PipelineError` subclass instance (which
carries a class-level `error_code` and `user_message`) or any other
Python exception (no `error_code` attribute).  `getattr(exc,
"error_code", "internal_error")` therefore yields the class code for the
former and `"internal_error"` for the latter. -/

inductive PyExc
  | pipeline (code msg userMsg : String)
  | other (msg : String)
  deriving DecidableEq, Repr

/-- `getattr(exc, "error_code", "internal_error")`. -/
def PyExc.errorCodeAttr : PyExc → String
  | .pipeline code _ _ => code
  | .other _ => "internal_error"

/-- `str(exc)`. -/
def PyExc.toStr : PyExc → String
  | .pipeline _ msg _ => msg
  | .other msg => msg

/-- `exc.user_message` (only read on the `PipelineError` branch). -/
def PyExc.userMessage : PyExc → String
  | .pipeline _ _ u => u
  | .other _ => ""

/-- `StylingError` as raised by the image-generation collaborator
(vak_bot/pipeline/errors.py lines 26–28). -/
def stylingError (msg : String) : PyExc :=
  .pipeline "styling_error" msg "Styling is taking longer. Trying a different approach..."

/-- The bare `PipelineError("No saree photo found for this post")` raised
by the STYLE stage; the base class carries code `"pipeline_error"`. -/
def noSareePhotoError : PyExc :=
  .pipeline "pipeline_error" "No saree photo found for this post"
    "Something went wrong. Please try again."

/-! ## Stage ledger (`stage_run`, vak_bot/pipeline/orchestrator.py
lines 29–49)

`stage_run` is a context manager over a SQLAlchemy session.  It is
embedded as a function from the wrapped body's outcome to the sequence
of committed snapshots of the `JobRun` row (the row is inserted and
committed on entry, then mutated in place and committed again on exit)
together with the propagated outcome. -/

/-- `JobRun` row (vak_bot/db/models.py).  `finished_at` is an abstract
timestamp. -/
structure JobRunRow where
  post_id : ℕ
  stage : JobStage
  status : JobStatus
  error_code : Option String := none
  error_message : Option String := none
  finished_at : Option ℕ := none
  deriving DecidableEq, Repr

/-- `stage_run` from vak_bot/pipeline/orchestrator.py.  The first list
component is the commit history of the `JobRun` row: the entry commit
(status `started`) followed by the exit commit (`succeeded` on normal
exit; `failed` with `error_code`/`error_message` copied from the
exception on a raise).  The second component is the body's outcome,
re-raised unchanged. -/
def stage_run {α : Type} (post_id : ℕ) (stage : JobStage) (now : ℕ)
    (body : Except PyExc α) : List JobRunRow × Except PyExc α :=
  let run : JobRunRow := { post_id := post_id, stage := stage, status := .started }
  match body with
  | .ok a =>
      ([run, { run with status := .succeeded, finished_at := some now }], .ok a)
  | .error exc =>
      ([run, { run with
                status := .failed,
                error_code := some exc.errorCodeAttr,
                error_message := some exc.toStr,
                finished_at := some now }], .error exc)

/-! ## Media source resolver (`_resolve_saree_sources`,
vak_bot/pipeline/orchestrator.py lines 77–83) -/

/-- Python's `sorted(..., key=lambda p: (not p.is_primary, p.id))`
comparison: lexicographic on the pair `(not is_primary, id)` with
`False < True`. -/
def photoLe (a b : ProductPhoto) : Bool :=
  (cond a.is_primary 0 1 < cond b.is_primary 0 1) ||
    (cond a.is_primary 0 1 == cond b.is_primary 0 1 && a.id ≤ b.id)

/-- The readable form of the photo ordering: primary-flagged photos
first, and inside each group ascending by id. -/
def primaryFirstThenId (a b : ProductPhoto) : Prop :=
  (a.is_primary = true ∧ b.is_primary = false) ∨
    (a.is_primary = b.is_primary ∧ a.id ≤ b.id)

theorem photoLe_iff (a b : ProductPhoto) :
    photoLe a b = true ↔ primaryFirstThenId a b := by
  cases ha : a.is_primary <;> cases hb : b.is_primary <;>
    simp [photoLe, primaryFirstThenId, ha, hb]

theorem photoLe_trans (a b c : ProductPhoto) :
    photoLe a b = true → photoLe b c = true → photoLe a c = true := by
  cases a.is_primary <;> cases b.is_primary <;> cases c.is_primary <;>
    simp [photoLe] <;> omega

theorem photoLe_total (a b : ProductPhoto) :
    (photoLe a b || photoLe b a) = true := by
  cases a.is_primary <;> cases b.is_primary <;> simp [photoLe] <;> omega

/-- `photoLe` as a binary relation, for use with `List.insertionSort`. -/
def photoRel (a b : ProductPhoto) : Prop := photoLe a b = true

instance : DecidableRel photoRel := fun a b =>
  inferInstanceAs (Decidable (photoLe a b = true))

instance : IsTrans ProductPhoto photoRel := ⟨photoLe_trans⟩

instance : IsTotal ProductPhoto photoRel :=
  ⟨fun a b => by
    have h := photoLe_total a b
    rcases Bool.or_eq_true_iff.mp h with h | h
    · exact Or.inl h
    · exact Or.inr h⟩

/-- `_resolve_saree_sources` from vak_bot/pipeline/orchestrator.py:
explicitly uploaded photo URLs verbatim when truthy; else the catalog
product's photos sorted ascending by the key `(not is_primary, id)`
(Python's `sorted`); else empty.  The truthiness chain
`post.product_id and post.product and post.product.photos` requires a
non-null, non-zero product id, a loaded product, and a non-empty photo
list. -/
def _resolve_saree_sources (post : Post) : List String :=
  match post.input_photo_urls with
  | some (u :: us) => u :: us
  | _ =>
    match post.product_id, post.product with
    | some pid, some prod =>
        if pid ≠ 0 ∧ prod.photos ≠ [] then
          (List.insertionSort photoRel prod.photos).map ProductPhoto.photo_url
        else []
    | _, _ => []

/-! ## Duration parsing (`_parse_duration_seconds`,
vak_bot/pipeline/downloader.py lines 20–56)

The parser receives JSON data: `None`, a number, or a string.  Strings
are stripped, lowercased, first tried as a `hh:mm:ss`/`mm:ss` clock
(only when every colon-separated part is a non-empty digit string and
there are exactly 2 or 3 parts), then scanned with the regex
`(\d+(?:\.\d+)?)` for the first number, dividing by 1000 when the text
contains `"ms"`. -/

/-- A JSON value handed to `_parse_duration_seconds`. -/
inductive RawDuration
  | pynone
  | num (value : ℚ)
  | str (text : String)
  deriving Repr

/-- Python's built-in `round` on a non-negative rational: round half to
even, then `int` (the value is already integral). -/
def pyRound (q : ℚ) : ℤ :=
  let f := ⌊q⌋
  let r := q - f
  if r < 1/2 then f
  else if 1/2 < r then f + 1
  else if f % 2 = 0 then f else f + 1

/-- `str.split(sep)` for a single-character separator. -/
def splitOnChar (sep : Char) : List Char → List Char → List (List Char)
  | [], acc => [acc.reverse]
  | c :: cs, acc =>
      if c = sep then acc.reverse :: splitOnChar sep cs []
      else splitOnChar sep cs (c :: acc)

/-- `p.isdigit()`: true only for a non-empty all-digit string. -/
def pyIsDigit (cs : List Char) : Bool :=
  !cs.isEmpty && cs.all Char.isDigit

/-- `int(p)` on an all-digit string. -/
def digitsToNat (cs : List Char) : ℕ :=
  cs.foldl (fun n c => 10 * n + (c.toNat - 48)) 0

/-- Does `hay` start with `needle`? (helper for Python's `in`). -/
def startsWithChars : List Char → List Char → Bool
  | [], _ => true
  | _ :: _, [] => false
  | n :: ns, h :: hs => n == h && startsWithChars ns hs

/-- Python's `needle in hay` substring test. -/
def containsSub (needle : List Char) : List Char → Bool
  | [] => startsWithChars needle []
  | h :: hs => startsWithChars needle (h :: hs) || containsSub needle hs

/-- `re.search(r"(\d+(?:\.\d+)?)", text)`: the first maximal digit run,
optionally extended by a dot and a further digit run.  Returns the
integer digits and the fractional digits. -/
def findFirstNumber : List Char → Option (List Char × List Char)
  | [] => none
  | c :: cs =>
      if c.isDigit then
        let ds := List.takeWhile Char.isDigit (c :: cs)
        let rest := List.dropWhile Char.isDigit (c :: cs)
        match rest with
        | '.' :: r2 =>
            let fs := List.takeWhile Char.isDigit r2
            some (ds, fs)
        | _ => some (ds, [])
      else findFirstNumber cs

/-- `text.strip()` (whitespace strip at both ends). -/
def pyStrip (cs : List Char) : List Char :=
  (((cs.dropWhile Char.isWhitespace).reverse).dropWhile Char.isWhitespace).reverse

/-- `text.lower()`. -/
def pyLower (cs : List Char) : List Char :=
  cs.map Char.toLower

/-- `_parse_duration_seconds` from vak_bot/pipeline/downloader.py. -/
def _parse_duration_seconds (raw : RawDuration) : Option ℤ :=
  match raw with
  | .pynone => none
  | .num v =>
      if v ≤ 0 then none
      else
        let v' := if 1000 ≤ v then v / 1000 else v
        some (max 1 (pyRound v'))
  | .str s =>
      let text := pyLower (pyStrip s.data)
      if text.isEmpty then none
      else
        let clockResult : Option ℤ :=
          if text.any (· == ':') then
            let parts := splitOnChar ':' text []
            if parts.all pyIsDigit then
              match parts with
              | [p0, p1] => some ((digitsToNat p0 : ℤ) * 60 + digitsToNat p1)
              | [p0, p1, p2] =>
                  some ((digitsToNat p0 : ℤ) * 3600 + (digitsToNat p1 : ℤ) * 60 + digitsToNat p2)
              | _ => none
            else none
          else none
        match clockResult with
        | some v => some v
        | none =>
            match findFirstNumber text with
            | none => none
            | some (ds, fs) =>
                let value : ℚ :=
                  (digitsToNat ds : ℚ) + (digitsToNat fs : ℚ) / ((10 : ℚ) ^ fs.length)
                let value := if containsSub ['m', 's'] text then value / 1000 else value
                if 0 < value then some (max 1 (pyRound value)) else none

/-! ## Saree preservation check (vak_bot/pipeline/saree_validator.py)

`SareeValidator._to_gray` decodes the image bytes, converts to
grayscale and resizes; this decoding step is deterministic, so
byte-identical inputs yield identical grayscale arrays and a uniform
colour image yields a constant array.  The embedding works at the
grayscale-array level: an image is the flattened list of its pixel
values, and `_ssim` is translated verbatim from the numpy code
(whole-image means, variances and covariance with the fixed constants
C1 = 6.5025, C2 = 58.5225).  The optional LPIPS score is computed only
when the optional `lpips` library imports and never influences
`is_valid`, so it is omitted from the embedding. -/

/-- numpy `.mean()` over a flattened array (division by zero yields 0,
matching the convention that the arrays in use are never empty). -/
def listMean (xs : List ℚ) : ℚ := xs.sum / xs.length

/-- numpy `.var()`. -/
def listVar (xs : List ℚ) : ℚ :=
  listMean (xs.map (fun v => (v - listMean xs) ^ 2))

/-- numpy `((x - x_mean) * (y - y_mean)).mean()`. -/
def listCov (xs ys : List ℚ) : ℚ :=
  listMean ((xs.zip ys).map (fun p => (p.1 - listMean xs) * (p.2 - listMean ys)))

/-- `SareeValidator._ssim` from vak_bot/pipeline/saree_validator.py. -/
def _ssim (x y : List ℚ) : ℚ :=
  let c1 : ℚ := 6.5025
  let c2 : ℚ := 58.5225
  let x_mean := listMean x
  let y_mean := listMean y
  let x_var := listVar x
  let y_var := listVar y
  let covariance := listCov x y
  let numerator := (2 * x_mean * y_mean + c1) * (2 * covariance + c2)
  let denominator := (x_mean ^ 2 + y_mean ^ 2 + c1) * (x_var + y_var + c2)
  if denominator = 0 then 0 else numerator / denominator

/-- `SareeValidator.verify_preserved` (SSIM part): validity is
`ssim_score >= self.threshold`. -/
def verify_preserved (threshold : ℚ) (origGray genGray : List ℚ) : Bool × ℚ :=
  let ssim_score := _ssim origGray genGray
  (decide (threshold ≤ ssim_score), ssim_score)

/-! ## Reel variation generation (`VeoGenerator.generate_reel_variations`,
vak_bot/pipeline/veo_generator.py lines 387–422)

The per-modifier call `generate_reel_from_styled_image` is the external
video-generation collaborator; it is passed in as a function returning
either an output path or one of the two typed errors the loop catches
(`VeoGenerationError`, `VeoTimeoutError`).  Untyped exceptions would
propagate out of the loop and are outside this model. -/

/-- The two typed errors caught by the variation loop. -/
inductive VeoErr
  | generation (msg : String)
  | timeout (msg : String)
  deriving DecidableEq, Repr

/-- `str(exc)`. -/
def VeoErr.toStr : VeoErr → String
  | .generation m => m
  | .timeout m => m

/-- `VIDEO_VARIATION_MODIFIERS` from vak_bot/pipeline/veo_generator.py. -/
def VIDEO_VARIATION_MODIFIERS : List String :=
  ["Use slow, gentle camera movement. Dreamy and meditative pacing."]

/-- Python `sep.join(l)`. -/
def joinSep (sep : String) : List String → String
  | [] => ""
  | [x] => x
  | x :: y :: xs => x ++ sep ++ joinSep sep (y :: xs)

/-- The accumulation loop of `generate_reel_variations`: per modifier,
append the result to `variations` when the call returns a truthy
(non-empty) path, or record `"[{modifier}] {exc}"` in `failures` when it
raises a typed error. -/
def reelVariationsLoop (call : String → Except VeoErr String) :
    List String → List String × List String
  | [] => ([], [])
  | m :: ms =>
      let rest := reelVariationsLoop call ms
      match call m with
      | .ok r => (if r = "" then rest.1 else r :: rest.1, rest.2)
      | .error e => (rest.1, ("[" ++ m ++ "] " ++ e.toStr) :: rest.2)

/-- `generate_reel_variations` from vak_bot/pipeline/veo_generator.py:
run the loop over the modifiers; if no variation succeeded and at least
one failure was recorded, raise a `VeoGenerationError` aggregating all
failure details. -/
def generate_reel_variations (call : String → Except VeoErr String)
    (modifiers : List String) : Except VeoErr (List String) :=
  let res := reelVariationsLoop call modifiers
  if res.1 = [] ∧ res.2 ≠ [] then
    .error (.generation
      ("No video variation was successfully generated. Failure details: " ++
        joinSep " | " res.2))
  else .ok res.1

/-! ## Ad-structure selection

src/tests/test_orchestrator_ad_structure.py imports
`_ad_structure_duration_seconds` and `_select_ad_structure` from
`vak_bot.pipeline.orchestrator`, but the orchestrator source under src/
does not define them; only the spec describes the selection rule.  An ad
structure is modelled as its list of per-scene durations. -/

/-- Modelled from the spec: `_ad_structure_duration_seconds` — the total
duration of an ad structure is the sum of its scenes' `duration_sec`
fields.  The function itself is missing from src/ (only its test is
present). -/
def _ad_structure_duration_seconds (sceneDurations : List ℕ) : ℕ :=
  sceneDurations.sum

/-- Modelled from the spec: `_select_ad_structure` — missing from src/
(only its test imports it).  Per the spec, selection among the
configured presets is by nearest total duration by absolute difference,
with ties broken toward the longer preset; without a requested duration
the requested preset name is kept. -/
def _select_ad_structure (presets : List (String × List ℕ))
    (requested : String) (targetDuration : Option ℚ) : String :=
  match targetDuration with
  | none => requested
  | some d =>
      match presets with
      | [] => requested
      | p :: ps =>
          (ps.foldl (fun best q =>
            let bd := |(_ad_structure_duration_seconds best.2 : ℚ) - d|
            let qd := |(_ad_structure_duration_seconds q.2 : ℚ) - d|
            if qd < bd ∨ (qd = bd ∧
                _ad_structure_duration_seconds best.2 <
                  _ad_structure_duration_seconds q.2) then q else best) p).1

/-! ## Image generation pipeline (`run_generation_pipeline`,
vak_bot/pipeline/orchestrator.py lines 86–250)

The orchestrator is embedded as explicit state passing over the rows it
touches.  External collaborators (downloader, analyzer, styler, HTTP
byte fetches, validator, caption writer) are parameters supplied as
`Except`-valued outcomes; the style-brief document is opaque (a token).
Each stage body is a function `Core → Core × Option PyExc`: it returns
the mutated state together with the exception it raised, if any —
mutations made before a raise survive, because `stage_run`'s exception
path commits the session.  `stageRunWrap` reflects `stage_run`'s effect
on the final database: one `JobRun` row per attempt, in its final state
(the row is inserted as `started` and then updated in place; the
commit-level view is `stage_run` above). -/

/-- `DownloadedReference` (vak_bot/pipeline/interfaces.py), restricted
to the fields `run_generation_pipeline` reads. -/
structure DownloadedReference where
  image_urls : List String
  caption : Option String
  hashtags : Option String
  deriving DecidableEq, Repr

/-- `StyledVariant` (vak_bot/schemas/contracts.py lines 126–129). -/
structure StyledVariant where
  variant_index : ℕ
  preview_url : String
  item_urls : List String
  deriving DecidableEq, Repr

/-- `CaptionPackage` (vak_bot/schemas/contracts.py), restricted to the
fields the image path persists. -/
structure CaptionPackage where
  caption : String
  hashtags : String
  alt_text : String
  deriving DecidableEq, Repr

/-- The mutable rows and side effects `run_generation_pipeline`
touches: the post row, the variant/item tables, a counter standing in
for the primary-key sequence (`session.flush()`), and the chat messages
sent. -/
structure Core where
  post : Post
  variants : List PostVariantRow := []
  items : List PostVariantItemRow := []
  nextVariantRowId : ℕ := 1
  sent : List String := []
  deriving DecidableEq, Repr

/-- The database after a run: the core state plus the stage ledger. -/
structure DB where
  core : Core
  jobruns : List JobRunRow := []
  deriving DecidableEq, Repr

/-- Collaborator outcomes for one `run_generation_pipeline` invocation.
Image bytes are opaque strings. -/
structure GenEnv where
  download : Except PyExc DownloadedReference
  analyze : Except PyExc ℕ
  generateVariants : Except PyExc (List StyledVariant)
  fetchBytes : String → Except PyExc String
  verify : String → String → Bool × ℚ
  verifyLpips : String → String → Option ℚ
  lpipsThreshold : ℚ := 15 / 100
  caption : Except PyExc CaptionPackage

/-- A stage body: mutates the core and possibly raises. -/
abbrev StageBody := Core → Core × Option PyExc

/-- The net effect of `with stage_run(session, post_id, stage):` around
a body: the body's mutations always persist (both exit paths of
`stage_run` commit), and exactly one ledger row is appended, in its
final state. -/
def stageRunWrap (post_id : ℕ) (now : ℕ) (stage : JobStage) (body : StageBody)
    (db : DB) : DB × Option PyExc :=
  match body db.core with
  | (c, none) =>
      ({ core := c, jobruns := db.jobruns ++
        [{ post_id := post_id, stage := stage, status := .succeeded,
           finished_at := some now }] }, none)
  | (c, some e) =>
      ({ core := c, jobruns := db.jobruns ++
        [{ post_id := post_id, stage := stage, status := .failed,
           error_code := some e.errorCodeAttr, error_message := some e.toStr,
           finished_at := some now }] }, some e)

/-- Sequencing of stages: a raised exception skips every later stage. -/
def andThenStage (post_id : ℕ) (now : ℕ) (stage : JobStage) (body : StageBody)
    (st : DB × Option PyExc) : DB × Option PyExc :=
  match st with
  | (db, some e) => (db, some e)
  | (db, none) => stageRunWrap post_id now stage body db

/-- DOWNLOAD stage body (orchestrator lines 114–120).
`reference.image_urls[0]` raises `IndexError` when the list is empty. -/
def downloadStage (env : GenEnv) : StageBody := fun c =>
  match env.download with
  | .error e => (c, some e)
  | .ok r =>
      match r.image_urls with
      | [] => (c, some (.other "list index out of range"))
      | u :: _ =>
          ({ c with post := { c.post with
              reference_image := some u,
              source_caption := r.caption,
              source_hashtags := r.hashtags,
              source_image_urls := some r.image_urls } }, none)

/-- ANALYZE stage body (orchestrator lines 122–125). -/
def analyzeStage (env : GenEnv) : StageBody := fun c =>
  match env.analyze with
  | .error e => (c, some e)
  | .ok brief =>
      ({ c with post := { c.post with style_brief := some brief } }, none)

/-- The per-variant persistence loop of the STYLE stage (orchestrator
lines 155–185): fetch the generated preview's bytes, run the
preservation check (warn-only: `is_valid` is forced to `True` on a low
score), insert the `PostVariant` row and its items, and accumulate the
preview URL.  A raise inside the loop keeps the rows inserted so far
(they are committed by `stage_run`'s failure path). -/
def persistVariantsLoop (env : GenEnv) (original_bytes : String) (post_id : ℕ) :
    List StyledVariant → Core → List String → Core × List String × Option PyExc
  | [], c, acc => (c, acc, none)
  | v :: vs, c, acc =>
      match env.fetchBytes v.preview_url with
      | .error e => (c, acc, some e)
      | .ok generated_bytes =>
          let checked := env.verify original_bytes generated_bytes
          let lpips_score := env.verifyLpips original_bytes generated_bytes
          let lowQuality := !checked.1 ||
            (match lpips_score with
             | some l => decide (env.lpipsThreshold < l)
             | none => false)
          let is_valid := if lowQuality then true else checked.1
          let rowId := c.nextVariantRowId
          let c' := { c with
            variants := c.variants ++
              [{ id := rowId, post_id := post_id,
                 variant_index := v.variant_index,
                 preview_url := v.preview_url,
                 ssim_score := checked.2, is_valid := is_valid }],
            items := c.items ++
              (v.item_urls.enum.map (fun p =>
                { variant_id := rowId, position := p.1 + 1, image_url := p.2 })),
            nextVariantRowId := rowId + 1 }
          persistVariantsLoop env original_bytes post_id vs c' (acc ++ [v.preview_url])

/-- STYLE stage body (orchestrator lines 127–196): resolve sources
(hard failure when empty), derive the reference URL list, switch to
carousel when more than one reference image, call the styler (which may
raise `StylingError`), then — only after a successful generation call —
delete all prior variants/items for this post and insert the new ones;
finally `persisted_preview_urls[0]` raises `IndexError` when the styler
returned no variants. -/
def styleStage (env : GenEnv) : StageBody := fun c =>
  match _resolve_saree_sources c.post with
  | [] => (c, some noSareePhotoError)
  | src0 :: _ =>
      let reference_urls :=
        match c.post.source_image_urls with
        | some (u :: us) => u :: us
        | _ =>
            match c.post.reference_image with
            | some r => [r]
            | none => []
      let c :=
        if 1 < reference_urls.length then
          { c with post := { c.post with media_type := "carousel" } }
        else c
      match env.generateVariants with
      | .error e => (c, some e)
      | .ok variants =>
          let deletedIds :=
            (c.variants.filter (fun v => v.post_id = c.post.id)).map (·.id)
          let c := { c with
            variants := c.variants.filter (fun v => v.post_id ≠ c.post.id),
            items := c.items.filter (fun it => it.variant_id ∉ deletedIds) }
          match env.fetchBytes src0 with
          | .error e => (c, some e)
          | .ok original_bytes =>
              match persistVariantsLoop env original_bytes c.post.id variants c [] with
              | (c, _, some e) => (c, some e)
              | (c, acc, none) =>
                  match acc with
                  | [] => (c, some (.other "list index out of range"))
                  | first :: _ =>
                      ({ c with post := { c.post with styled_image := some first } }, none)

/-- CAPTION stage body (orchestrator lines 198–208). -/
def captionStage (env : GenEnv) : StageBody := fun c =>
  match env.caption with
  | .error e => (c, some e)
  | .ok pkg =>
      ({ c with post := { c.post with
          caption := some pkg.caption,
          hashtags := some pkg.hashtags,
          alt_text := some pkg.alt_text,
          status := .review_ready } }, none)

/-- REVIEW stage body (orchestrator lines 210–234): gathers the variant
item images and hands them to the review-delivery collaborator
(recorded as one sent message). -/
def reviewStage : StageBody := fun c =>
  ({ c with sent := c.sent ++ ["<review_package>"] }, none)

/-- `run_generation_pipeline` from vak_bot/pipeline/orchestrator.py:
silent no-op when the post is CANCELLED; otherwise set PROCESSING,
clear the error fields, run DOWNLOAD → ANALYZE → STYLE → CAPTION →
REVIEW each inside a stage-run scope, and on an escaped exception mark
the post FAILED (typed errors keep their `error_code` and canned user
message; untyped ones record `"internal_error"` and a generic
message). -/
def run_generation_pipeline (env : GenEnv) (now : ℕ) (c0 : Core) : DB :=
  if c0.post.status = .cancelled then { core := c0, jobruns := [] }
  else
    let pid := c0.post.id
    let c1 := { c0 with post := { c0.post with
      status := .processing, error_code := none, error_message := none } }
    let st :=
      andThenStage pid now .review reviewStage
        (andThenStage pid now .caption (captionStage env)
          (andThenStage pid now .style (styleStage env)
            (andThenStage pid now .analyze (analyzeStage env)
              (stageRunWrap pid now .download (downloadStage env)
                { core := c1, jobruns := [] }))))
    match st with
    | (db, none) => db
    | (db, some (.pipeline code msg userMsg)) =>
        { db with core := { db.core with
            post := { db.core.post with
              status := .failed, error_code := some code,
              error_message := some msg },
            sent := db.core.sent ++ [userMsg] } }
    | (db, some (.other msg)) =>
        { db with core := { db.core with
            post := { db.core.post with
              status := .failed, error_code := some "internal_error",
              error_message := some msg },
            sent := db.core.sent ++ ["Something unexpected happened. Please retry."] } }

/-- A concrete environment in which the image-generation collaborator
(the styler) always throws `StylingError`, while download, analysis and
every other collaborator behave normally. -/
def envC4 : GenEnv :=
  { download := .ok ⟨["ref1.jpg"], some "cap", some "#h"⟩,
    analyze := .ok 0,
    generateVariants := .error (stylingError "styler down"),
    fetchBytes := fun _ => .ok "bytes",
    verify := fun _ _ => (true, 1),
    verifyLpips := fun _ _ => none,
    caption := .ok { caption := "c", hashtags := "h", alt_text := "a" } }

/-- A concrete initial state: a DRAFT post with an uploaded product
photo and one PostVariant row surviving from an earlier run. -/
def coreC4 : Core :=
  { post := { id := 4, status := .draft, input_photo_urls := some ["saree.jpg"] },
    variants := [⟨1, 4, 1, "old.jpg", 1, true⟩],
    items := [⟨1, 1, "old.jpg"⟩],
    nextVariantRowId := 2 }

/-! ## Publish orchestrator (`run_publish`,
vak_bot/pipeline/orchestrator.py lines 286–389)

Same embedding style: the poster client and the byte/compression/storage
collaborators are parameters, chat messages and collaborator calls are
recorded as an action trace, and early `return`s inside the stage scope
exit the context manager normally (the stage row is committed as
`succeeded`). -/

/-- Python f-string interpolation of a nullable value (`None` prints as
`"None"`). -/
def optStr : Option String → String
  | some s => s
  | none => "None"

/-- Observable publish-path actions: chat messages and the three poster
operations with their arguments. -/
inductive PubAction
  | sendText (msg : String)
  | callPostReel (video_url caption : String) (thumb_offset : ℕ)
  | callPostCarousel (image_urls : List String) (caption alt_text key : String)
  | callPostSingle (image_url caption alt_text key : String)
  deriving DecidableEq, Repr

/-- Is the action one of the publish collaborator operations? -/
def PubAction.isPublishCall : PubAction → Bool
  | .callPostReel _ _ _ => true
  | .callPostCarousel _ _ _ _ => true
  | .callPostSingle _ _ _ _ => true
  | .sendText _ => false

/-- `result.get("id")` / `result.get("permalink")` of the poster client's
response dict. -/
structure PostResult where
  resultId : Option String
  permalink : Option String
  deriving DecidableEq, Repr

/-- Collaborator outcomes for one `run_publish` invocation. -/
structure PublishEnv where
  fetchBytes : String → Except PyExc String
  tmpName : String
  compress : String → String
  pathBytes : String → String
  upload : String → String → Except PyExc String
  postReel : Except PyExc PostResult
  postCarousel : Except PyExc PostResult
  postSingle : Except PyExc PostResult
  freshKeySuffix : String
  compressedKeySuffix : String

/-- The state `run_publish` reads and mutates. -/
structure PubState where
  post : Post
  variants : List PostVariantRow := []
  items : List PostVariantItemRow := []
  actions : List PubAction := []
  jobruns : List JobRunRow := []
  deriving DecidableEq, Repr

/-- Ordering of carousel items (`order_by(PostVariantItem.position.asc())`). -/
def itemPosLe (a b : PostVariantItemRow) : Prop := a.position ≤ b.position

instance : DecidableRel itemPosLe := fun a b => Nat.decLe a.position b.position

/-- How a run of the POST stage body ends: an early `return` (the stage
still exits normally), a poster result, or a raised exception. -/
inductive StageOut
  | earlyReturn
  | result (r : PostResult)
  | raise (e : PyExc)
  deriving DecidableEq, Repr

/-- The body of the POST stage of `run_publish` (orchestrator lines
300–368), branching on `media_type`.  The reel branch fetches the video,
compresses it (the compressor returns the original path when compression
is skipped or fails), uploads the compressed artifact when one was
produced, and calls `post_reel`; the carousel/single branches require a
selected variant (`selected_variant_index or 1` — `None` and `0` are
both falsy). -/
def publishStageBody (env : PublishEnv) (key : String) :
    PubState → PubState × StageOut := fun st =>
  if st.post.media_type = "reel" then
    match st.post.video_url with
    | none =>
        ({ st with actions := st.actions ++
            [.sendText "No video found for this post."] }, .earlyReturn)
    | some vurl =>
        match env.fetchBytes vurl with
        | .error e => (st, .raise e)
        | .ok _local_bytes =>
            let compressed_path := env.compress env.tmpName
            let publishUpload : Except PyExc String :=
              if compressed_path = env.tmpName then .ok vurl
              else env.upload
                ("reels/" ++ toString st.post.id ++ "/publish_compressed_" ++
                  env.compressedKeySuffix ++ ".mp4")
                (env.pathBytes compressed_path)
            match publishUpload with
            | .error e => (st, .raise e)
            | .ok publish_video_url =>
                match env.postReel with
                | .error e =>
                    ({ st with actions := st.actions ++
                        [.callPostReel publish_video_url
                          (optStr st.post.caption ++ "\n\n" ++ optStr st.post.hashtags)
                          (st.post.thumb_offset_ms.getD 0)] }, .raise e)
                | .ok r =>
                    ({ st with actions := st.actions ++
                        [.callPostReel publish_video_url
                          (optStr st.post.caption ++ "\n\n" ++ optStr st.post.hashtags)
                          (st.post.thumb_offset_ms.getD 0)] }, .result r)
  else
    let idx :=
      match st.post.selected_variant_index with
      | some n => if n = 0 then 1 else n
      | none => 1
    match (st.variants.filter (fun v =>
        v.post_id = st.post.id ∧ v.variant_index = idx)).head? with
    | none =>
        ({ st with actions := st.actions ++
            [.sendText "Please select a variant first (1, 2, or 3)."] }, .earlyReturn)
    | some v =>
        if st.post.media_type = "carousel" then
          let itemUrls :=
            (List.insertionSort itemPosLe
              (st.items.filter (fun it => it.variant_id = v.id))).map (·.image_url)
          match env.postCarousel with
          | .error e =>
              ({ st with actions := st.actions ++
                  [.callPostCarousel itemUrls
                    (optStr st.post.caption ++ "\n\n" ++ optStr st.post.hashtags)
                    (st.post.alt_text.getD "") key] }, .raise e)
          | .ok r =>
              ({ st with actions := st.actions ++
                  [.callPostCarousel itemUrls
                    (optStr st.post.caption ++ "\n\n" ++ optStr st.post.hashtags)
                    (st.post.alt_text.getD "") key] }, .result r)
        else
          match env.postSingle with
          | .error e =>
              ({ st with actions := st.actions ++
                  [.callPostSingle v.preview_url
                    (optStr st.post.caption ++ "\n\n" ++ optStr st.post.hashtags)
                    (st.post.alt_text.getD "") key] }, .raise e)
          | .ok r =>
              ({ st with actions := st.actions ++
                  [.callPostSingle v.preview_url
                    (optStr st.post.caption ++ "\n\n" ++ optStr st.post.hashtags)
                    (st.post.alt_text.getD "") key] }, .result r)

/-- `run_publish` from vak_bot/pipeline/orchestrator.py: if the post is
already POSTED, report the existing external URL and stop; otherwise set
APPROVED, ensure the idempotency key, run the POST stage, and on success
store the external id/permalink/timestamp/identity and set POSTED; on
an exception set FAILED (typed errors keep their code, untyped ones get
`"publish_error"`). -/
def run_publish (env : PublishEnv) (now : ℕ) (posted_by : String)
    (st0 : PubState) : PubState :=
  if st0.post.status = .posted then
    { st0 with actions := st0.actions ++
        [.sendText ("Already posted: " ++ optStr st0.post.instagram_url)] }
  else
    let freshKey := "post:" ++ toString st0.post.id ++ ":" ++ env.freshKeySuffix
    let key :=
      match st0.post.publish_idempotency_key with
      | some k => if k = "" then freshKey else k
      | none => freshKey
    let st1 := { st0 with post := { st0.post with
      status := .approved, publish_idempotency_key := some key } }
    let pid := st1.post.id
    match publishStageBody env key st1 with
    | (st2, .earlyReturn) =>
        { st2 with jobruns := st2.jobruns ++
            [{ post_id := pid, stage := .post, status := .succeeded,
               finished_at := some now }] }
    | (st2, .result r) =>
        { st2 with
          post := { st2.post with
            instagram_post_id := r.resultId,
            instagram_url := r.permalink,
            posted_at := some now,
            posted_by := some posted_by,
            status := .posted },
          jobruns := st2.jobruns ++
            [{ post_id := pid, stage := .post, status := .succeeded,
               finished_at := some now }],
          actions := st2.actions ++
            [.sendText ("Posted successfully: " ++ optStr r.permalink)] }
    | (st2, .raise e) =>
        let st3 : PubState := { st2 with jobruns := st2.jobruns ++
            [{ post_id := pid, stage := .post, status := .failed,
               error_code := some e.errorCodeAttr, error_message := some e.toStr,
               finished_at := some now }] }
        match e with
        | .pipeline code msg userMsg =>
            { st3 with
              post := { st3.post with
                status := .failed, error_code := some code,
                error_message := some msg },
              actions := st3.actions ++ [.sendText userMsg] }
        | .other msg =>
            { st3 with
              post := { st3.post with
                status := .failed, error_code := some "publish_error",
                error_message := some msg },
              actions := st3.actions ++
                [.sendText "Posting failed. You can retry with 'post now'."] }

end VakBot

namespace VakBot

/-- C3: POSTED and CANCELLED are absorbing for `can_transition_post`;
DRAFT → PROCESSING is allowed; and from FAILED exactly PROCESSING and
CANCELLED are allowed. -/
theorem post_state_machine_spec :
    (∀ t : PostStatus, can_transition_post .posted t = false) ∧
    (∀ t : PostStatus, can_transition_post .cancelled t = false) ∧
    can_transition_post .draft .processing = true ∧
    (∀ t : PostStatus,
      can_transition_post .failed t = true ↔ (t = .processing ∨ t = .cancelled)) := by
  refine ⟨?_, ?_, by decide, ?_⟩ <;> intro t <;> cases t <;> simp [can_transition_post, allowedPostTransitions]

/-- C10: the two `SessionState` values absent from the transition dict —
AWAITING_PHOTOS and AWAITING_VIDEO_SELECTION — admit no outgoing
transition at all. -/
theorem session_absent_states_absorbing :
    (∀ t : SessionState, can_transition_session .awaiting_photos t = false) ∧
    (∀ t : SessionState, can_transition_session .awaiting_video_selection t = false) := by
  constructor <;> intro t <;> cases t <;> simp [can_transition_session, allowedSessionTransitions]

/-- C6: the media source resolver returns explicitly uploaded photo URLs
verbatim when any exist; otherwise, for a post referencing a catalog
product with photos, the product's photo URLs as a permutation of all of
them ordered primary-first then ascending by id; otherwise the empty
list. -/
theorem resolve_saree_sources_spec :
    (∀ (post : Post) (urls : List String),
      post.input_photo_urls = some urls → urls ≠ [] →
      _resolve_saree_sources post = urls) ∧
    (∀ (post : Post) (pid : ℤ) (prod : Product),
      (post.input_photo_urls = none ∨ post.input_photo_urls = some []) →
      post.product_id = some pid → pid ≠ 0 →
      post.product = some prod → prod.photos ≠ [] →
      ∃ ps : List ProductPhoto,
        ps.Perm prod.photos ∧
        List.Pairwise primaryFirstThenId ps ∧
        _resolve_saree_sources post = ps.map ProductPhoto.photo_url) ∧
    (∀ post : Post,
      (post.input_photo_urls = none ∨ post.input_photo_urls = some []) →
      (post.product_id = none ∨ post.product_id = some 0 ∨ post.product = none ∨
        (∀ prod : Product, post.product = some prod → prod.photos = [])) →
      _resolve_saree_sources post = []) := by
  refine ⟨?_, ?_, ?_⟩
  · intro post urls h hne
    cases urls with
    | nil => exact absurd rfl hne
    | cons u us => simp [_resolve_saree_sources, h]
  · intro post pid prod hin hpid hpid0 hprod hne
    refine ⟨List.insertionSort photoRel prod.photos,
      List.perm_insertionSort photoRel prod.photos, ?_, ?_⟩
    · exact (List.sorted_insertionSort photoRel prod.photos).imp
        (fun h => (photoLe_iff _ _).mp h)
    · rcases hin with h | h <;>
        simp [_resolve_saree_sources, h, hpid, hprod, hpid0, hne]
  · intro post hin hfail
    rcases hin with h | h <;>
      rcases hfail with hf | hf | hf | hf <;>
        simp_all [_resolve_saree_sources] <;>
        rcases hp : post.product with _ | prod <;>
          rcases hq : post.product_id with _ | pid <;>
            simp_all [_resolve_saree_sources]

/-- Concrete instantiation of `resolve_saree_sources_spec`: a post with
no uploads and a product whose second photo is primary resolves to the
primary photo first. -/
theorem resolve_saree_sources_spec_witness :
    _resolve_saree_sources
      { id := 1, product_id := some 7,
        product := some { id := 7, photos :=
          [⟨1, "a.jpg", false⟩, ⟨2, "b.jpg", true⟩] } } = ["b.jpg", "a.jpg"] ∧
    _resolve_saree_sources
      { id := 2, input_photo_urls := some ["up1.jpg", "up2.jpg"] } = ["up1.jpg", "up2.jpg"] ∧
    _resolve_saree_sources { id := 3 } = [] := by
  have h2 := resolve_saree_sources_spec.1
      { id := 2, input_photo_urls := some ["up1.jpg", "up2.jpg"] }
      ["up1.jpg", "up2.jpg"] rfl (by simp)
  have h1 := resolve_saree_sources_spec.2.1
      { id := 1, product_id := some 7,
        product := some { id := 7, photos :=
          [⟨1, "a.jpg", false⟩, ⟨2, "b.jpg", true⟩] } }
      7 { id := 7, photos := [⟨1, "a.jpg", false⟩, ⟨2, "b.jpg", true⟩] }
      (Or.inl rfl) rfl (by decide) rfl (by simp)
  have h3 := resolve_saree_sources_spec.2.2 { id := 3 } (Or.inl rfl) (Or.inl rfl)
  refine ⟨?_, h2, h3⟩
  · rfl

/-- C2: `stage_run` first commits a JobRun row with status `started`;
on normal exit of the body it commits the row as `succeeded` with a
finish time; on an exception it commits the row as `failed` with
`error_code` from the exception's `error_code` attribute (default
`"internal_error"`), `error_message` set to the exception's string and a
finish time, and re-raises the same exception. -/
theorem stage_run_ledger_spec {α : Type} (post_id : ℕ) (stage : JobStage)
    (now : ℕ) (body : Except PyExc α) :
    (∃ rest, (stage_run post_id stage now body).1 =
      { post_id := post_id, stage := stage, status := .started } :: rest) ∧
    (stage_run post_id stage now body).2 = body ∧
    (∀ a : α, body = .ok a →
      (stage_run post_id stage now body).1 =
        [{ post_id := post_id, stage := stage, status := .started },
         { post_id := post_id, stage := stage, status := .succeeded,
           finished_at := some now }]) ∧
    (∀ code msg userMsg, body = .error (.pipeline code msg userMsg) →
      (stage_run post_id stage now body).1 =
        [{ post_id := post_id, stage := stage, status := .started },
         { post_id := post_id, stage := stage, status := .failed,
           error_code := some code, error_message := some msg,
           finished_at := some now }]) ∧
    (∀ msg, body = .error (.other msg) →
      (stage_run post_id stage now body).1 =
        [{ post_id := post_id, stage := stage, status := .started },
         { post_id := post_id, stage := stage, status := .failed,
           error_code := some "internal_error", error_message := some msg,
           finished_at := some now }]) := by
  refine ⟨?_, ?_, ?_, ?_, ?_⟩
  · cases body <;> exact ⟨_, rfl⟩
  · cases body <;> rfl
  · intro a h; subst h; rfl
  · intro code msg userMsg h; subst h; rfl
  · intro msg h; subst h; rfl

/-- Concrete instantiation of `stage_run_ledger_spec` at a succeeding
body and at a typed failing body. -/
theorem stage_run_ledger_spec_witness :
    (stage_run 5 .style 42 (Except.ok (0 : ℕ))).1 =
      [{ post_id := 5, stage := .style, status := .started },
       { post_id := 5, stage := .style, status := .succeeded,
         finished_at := some 42 }] ∧
    (stage_run 5 .style 42
        (Except.error (α := ℕ) (.pipeline "styling_error" "boom" "u"))).1 =
      [{ post_id := 5, stage := .style, status := .started },
       { post_id := 5, stage := .style, status := .failed,
         error_code := some "styling_error", error_message := some "boom",
         finished_at := some 42 }] :=
  ⟨(stage_run_ledger_spec 5 .style 42 (Except.ok (0 : ℕ))).2.2.1 0 rfl,
   (stage_run_ledger_spec 5 .style 42
      (Except.error (.pipeline "styling_error" "boom" "u"))).2.2.2.1
      "styling_error" "boom" "u" rfl⟩

theorem zip_self_eq_map (l : List ℚ) : l.zip l = l.map (fun a => (a, a)) := by
  induction l with
  | nil => rfl
  | cons x xs ih => simp [List.zip_cons_cons, ih]

theorem listCov_self (x : List ℚ) : listCov x x = listVar x := by
  unfold listCov listVar
  rw [zip_self_eq_map, List.map_map]
  congr 1
  apply List.map_congr_left
  intro a _
  simp [Function.comp]
  ring

theorem listVar_nonneg (x : List ℚ) : 0 ≤ listVar x := by
  unfold listVar listMean
  apply div_nonneg
  · apply List.sum_nonneg
    intro q hq
    simp only [List.mem_map] at hq
    obtain ⟨a, -, rfl⟩ := hq
    positivity
  · positivity

theorem ssim_self (x : List ℚ) : _ssim x x = 1 := by
  have hv := listVar_nonneg x
  have hden : (listMean x ^ 2 + listMean x ^ 2 + 6.5025) *
      (listVar x + listVar x + 58.5225) ≠ 0 := by positivity
  have hnum : (2 * listMean x * listMean x + 6.5025) * (2 * listVar x + 58.5225) =
      (listMean x ^ 2 + listMean x ^ 2 + 6.5025) * (listVar x + listVar x + 58.5225) := by
    ring
  simp only [_ssim, listCov_self, if_neg hden, hnum]
  exact div_self hden

theorem replicate_zip (n : ℕ) (a b : ℚ) :
    (List.replicate n a).zip (List.replicate n b) = List.replicate n (a, b) := by
  induction n with
  | zero => rfl
  | succ k ih => simp [List.replicate_succ, List.zip_cons_cons, ih]

theorem listMean_replicate (n : ℕ) (hn : n ≠ 0) (a : ℚ) :
    listMean (List.replicate n a) = a := by
  unfold listMean
  rw [List.sum_replicate, List.length_replicate, nsmul_eq_mul]
  rw [mul_comm, mul_div_assoc, div_self (by exact_mod_cast hn), mul_one]

theorem listVar_replicate (n : ℕ) (hn : n ≠ 0) (a : ℚ) :
    listVar (List.replicate n a) = 0 := by
  unfold listVar
  rw [listMean_replicate n hn, List.map_replicate]
  simp [listMean]

theorem listCov_replicate (n : ℕ) (hn : n ≠ 0) (a b : ℚ) :
    listCov (List.replicate n a) (List.replicate n b) = 0 := by
  unfold listCov
  rw [replicate_zip, listMean_replicate n hn, listMean_replicate n hn,
    List.map_replicate]
  simp [listMean]

/-- C7: byte-identical inputs (hence identical grayscale arrays) pass
the preservation check with similarity ≥ 0.99 and `is_valid = true` for
any threshold the call sites use (≤ 1); a uniform near-black image
(pixel value ≤ 50) against a uniform near-white image (pixel value in
[200, 255]) scores strictly below 0.6. -/
theorem verify_preserved_spec :
    (∀ (t : ℚ) (img : List ℚ), t ≤ 1 →
      (verify_preserved t img img).1 = true ∧
      (99 / 100 : ℚ) ≤ (verify_preserved t img img).2) ∧
    (∀ (n : ℕ) (a b t : ℚ), n ≠ 0 → 0 ≤ a → a ≤ 50 → 200 ≤ b → b ≤ 255 →
      (verify_preserved t (List.replicate n a) (List.replicate n b)).2 < 6 / 10) := by
  constructor
  · intro t img ht
    have h := ssim_self img
    constructor
    · simp [verify_preserved, h, ht]
    · simp [verify_preserved, h]
      norm_num
  · intro n a b t hn ha0 ha hb hb'
    have hden : ((a ^ 2 + b ^ 2 + 6.5025) * (0 + 0 + 58.5225) : ℚ) ≠ 0 := by positivity
    have hssim : _ssim (List.replicate n a) (List.replicate n b) =
        (2 * a * b + 6.5025) * (2 * 0 + 58.5225) /
          ((a ^ 2 + b ^ 2 + 6.5025) * (0 + 0 + 58.5225)) := by
      simp only [_ssim, listMean_replicate n hn, listVar_replicate n hn,
        listCov_replicate n hn, if_neg hden]
    have hba : (150 : ℚ) ≤ b - a := by linarith
    have hsq : (22500 : ℚ) ≤ (b - a) ^ 2 := by nlinarith
    have hab : a * b ≤ 12750 := by nlinarith
    have hpos : (0 : ℚ) < (a ^ 2 + b ^ 2 + 6.5025) * (0 + 0 + 58.5225) := by positivity
    simp only [verify_preserved, hssim]
    rw [div_lt_iff₀ hpos]
    nlinarith [hsq, hab]

/-- Concrete instantiation of `verify_preserved_spec`: a two-pixel
grayscale image against itself at the default threshold 0.6, and
uniform gray levels 10 (near-black) vs 240 (near-white). -/
theorem verify_preserved_spec_witness :
    ((verify_preserved (6 / 10) [10, 20] [10, 20]).1 = true ∧
      (99 / 100 : ℚ) ≤ (verify_preserved (6 / 10) [10, 20] [10, 20]).2) ∧
    (verify_preserved (6 / 10) (List.replicate 2 10) (List.replicate 2 240)).2 < 6 / 10 :=
  ⟨verify_preserved_spec.1 (6 / 10) [10, 20] (by norm_num),
   verify_preserved_spec.2 2 10 240 (6 / 10) (by decide) (by norm_num)
     (by norm_num) (by norm_num) (by norm_num)⟩

/-- C8: the duration parser maps `"00:30"` to 30 s, `"01:02:03"` to
3723 s, the number 29.6 to 30 s, `"29s"` to 29 s and `"32000ms"` to
32 s. -/
theorem parse_duration_examples :
    _parse_duration_seconds (.str "00:30") = some 30 ∧
    _parse_duration_seconds (.str "01:02:03") = some 3723 ∧
    _parse_duration_seconds (.num (296 / 10)) = some 30 ∧
    _parse_duration_seconds (.str "29s") = some 29 ∧
    _parse_duration_seconds (.str "32000ms") = some 32 := by
  have h29 : pyLower (pyStrip ("29s".data)) = ['2', '9', 's'] := by decide
  have h32 : pyLower (pyStrip ("32000ms".data)) =
      ['3', '2', '0', '0', '0', 'm', 's'] := by decide
  have hf29 : findFirstNumber ['2', '9', 's'] = some (['2', '9'], []) := by decide
  have hf32 : findFirstNumber ['3', '2', '0', '0', '0', 'm', 's'] =
      some (['3', '2', '0', '0', '0'], []) := by decide
  refine ⟨by decide, by decide, ?_, ?_, ?_⟩
  · norm_num [_parse_duration_seconds, pyRound]
  · simp only [_parse_duration_seconds, h29, hf29,
      show List.any ['2', '9', 's'] (· == ':') = false from by decide,
      show containsSub ['m', 's'] ['2', '9', 's'] = false from by decide,
      show digitsToNat ['2', '9'] = 29 from by decide,
      show digitsToNat ([] : List Char) = 0 from by decide,
      List.isEmpty, List.length_nil, Bool.false_eq_true, if_false]
    norm_num [pyRound]
  · simp only [_parse_duration_seconds, h32, hf32,
      show List.any ['3', '2', '0', '0', '0', 'm', 's'] (· == ':') = false from by decide,
      show containsSub ['m', 's'] ['3', '2', '0', '0', '0', 'm', 's'] = true from by decide,
      show digitsToNat ['3', '2', '0', '0', '0'] = 32000 from by decide,
      show digitsToNat ([] : List Char) = 0 from by decide,
      List.isEmpty, List.length_nil, Bool.false_eq_true, if_false, if_true]
    norm_num [pyRound]

/-- C1: invoking `run_publish` on a post whose status is already POSTED
sends exactly one message reporting the existing external URL, leaves
the post row (publish identifiers included) untouched, and invokes no
publish collaborator operation. -/
theorem run_publish_idempotent (env : PublishEnv) (now : ℕ)
    (posted_by : String) (st : PubState) (h : st.post.status = .posted) :
    run_publish env now posted_by st =
      { st with actions := st.actions ++
          [.sendText ("Already posted: " ++ optStr st.post.instagram_url)] } ∧
    (run_publish env now posted_by st).post = st.post ∧
    (∀ a ∈ (run_publish env now posted_by st).actions,
      a.isPublishCall = true → a ∈ st.actions) := by
  have he : run_publish env now posted_by st =
      { st with actions := st.actions ++
          [.sendText ("Already posted: " ++ optStr st.post.instagram_url)] } := by
    unfold run_publish
    rw [if_pos h]
  refine ⟨he, by rw [he], ?_⟩
  intro a ha hp
  rw [he] at ha
  rcases List.mem_append.mp ha with ha' | ha'
  · exact ha'
  · rw [List.mem_singleton.mp ha'] at hp
    simp [PubAction.isPublishCall] at hp

/-- Concrete instantiation of `run_publish_idempotent`: a POSTED reel
post with a stored permalink. -/
theorem run_publish_idempotent_witness :
    run_publish
      { fetchBytes := fun _ => .ok "", tmpName := "/tmp/v.mp4",
        compress := fun p => p, pathBytes := fun _ => "",
        upload := fun _ _ => .ok "", postReel := .ok ⟨none, none⟩,
        postCarousel := .ok ⟨none, none⟩, postSingle := .ok ⟨none, none⟩,
        freshKeySuffix := "aaaa", compressedKeySuffix := "bbbb" }
      0 "operator"
      { post := { id := 9, status := .posted,
                  instagram_url := some "https://instagram.com/p/9",
                  media_type := "reel" } } =
      { post := { id := 9, status := .posted,
                  instagram_url := some "https://instagram.com/p/9",
                  media_type := "reel" },
        actions := [.sendText "Already posted: https://instagram.com/p/9"] } :=
  (run_publish_idempotent
    { fetchBytes := fun _ => .ok "", tmpName := "/tmp/v.mp4",
      compress := fun p => p, pathBytes := fun _ => "",
      upload := fun _ _ => .ok "", postReel := .ok ⟨none, none⟩,
      postCarousel := .ok ⟨none, none⟩, postSingle := .ok ⟨none, none⟩,
      freshKeySuffix := "aaaa", compressedKeySuffix := "bbbb" }
    0 "operator"
    { post := { id := 9, status := .posted,
                instagram_url := some "https://instagram.com/p/9",
                media_type := "reel" } } rfl).1

theorem resolve_saree_sources_congr (p q : Post)
    (h1 : p.input_photo_urls = q.input_photo_urls)
    (h2 : p.product_id = q.product_id) (h3 : p.product = q.product) :
    _resolve_saree_sources p = _resolve_saree_sources q := by
  unfold _resolve_saree_sources
  rw [h1, h2, h3]

/-- C4 (amended): if the styler call inside the STYLE stage always
throws `StylingError`, the ledger records DOWNLOAD and ANALYZE as
succeeded and STYLE as failed with error code `styling_error`, the post
ends FAILED with `error_code = "styling_error"`, and the variant/item
tables are left exactly as they were — no new rows, and prior variants
intact, because the delete of prior variants happens only after a
successful generation call. -/
theorem generation_style_failure (env : GenEnv) (now : ℕ) (c0 : Core)
    (r : DownloadedReference) (u : String) (us : List String)
    (brief : ℕ) (msg : String)
    (hst : c0.post.status ≠ .cancelled)
    (hdl : env.download = .ok r) (him : r.image_urls = u :: us)
    (han : env.analyze = .ok brief)
    (hgen : env.generateVariants = .error (stylingError msg))
    (hsrc : _resolve_saree_sources c0.post ≠ []) :
    (run_generation_pipeline env now c0).core.post.status = .failed ∧
    (run_generation_pipeline env now c0).core.post.error_code = some "styling_error" ∧
    (run_generation_pipeline env now c0).core.post.error_message = some msg ∧
    (run_generation_pipeline env now c0).core.variants = c0.variants ∧
    (run_generation_pipeline env now c0).core.items = c0.items ∧
    (run_generation_pipeline env now c0).jobruns =
      [{ post_id := c0.post.id, stage := .download, status := .succeeded,
         finished_at := some now },
       { post_id := c0.post.id, stage := .analyze, status := .succeeded,
         finished_at := some now },
       { post_id := c0.post.id, stage := .style, status := .failed,
         error_code := some "styling_error", error_message := some msg,
         finished_at := some now }] := by
  obtain ⟨s0, srest, hres⟩ : ∃ s0 srest,
      _resolve_saree_sources c0.post = s0 :: srest := by
    cases h : _resolve_saree_sources c0.post with
    | nil => exact absurd h hsrc
    | cons a l => exact ⟨a, l, rfl⟩
  have hcongr : ∀ p : Post, p.input_photo_urls = c0.post.input_photo_urls →
      p.product_id = c0.post.product_id → p.product = c0.post.product →
      _resolve_saree_sources p = s0 :: srest := fun p h1 h2 h3 => by
    rw [resolve_saree_sources_congr p c0.post h1 h2 h3, hres]
  simp only [run_generation_pipeline, if_neg hst, andThenStage, stageRunWrap,
    downloadStage, hdl, him, analyzeStage, han, styleStage, hgen,
    stylingError, PyExc.errorCodeAttr, PyExc.toStr]
  simp only [hcongr]
  split <;> simp

/-- C4 counterexample: with one prior PostVariant row and an
always-throwing styler, the pipeline ends FAILED with
`error_code = "styling_error"` and the STYLE ledger row failed — but the
prior variant row is still present (so "no PostVariant rows are
persisted" is false, and the delete did not happen before the failing
generation call). -/
theorem generation_style_failure_counterexample :
    (run_generation_pipeline envC4 0 coreC4).core.post.status = .failed ∧
    (run_generation_pipeline envC4 0 coreC4).core.post.error_code =
      some "styling_error" ∧
    (run_generation_pipeline envC4 0 coreC4).core.variants =
      [⟨1, 4, 1, "old.jpg", 1, true⟩] ∧
    (run_generation_pipeline envC4 0 coreC4).core.variants ≠ [] := by
  refine ⟨?_, ?_, ?_, ?_⟩ <;> decide

/-- Concrete instantiation of `generation_style_failure` at `envC4` /
`coreC4`. -/
theorem generation_style_failure_witness :
    (run_generation_pipeline envC4 0 coreC4).core.post.status = .failed ∧
    (run_generation_pipeline envC4 0 coreC4).core.post.error_code =
      some "styling_error" ∧
    (run_generation_pipeline envC4 0 coreC4).core.post.error_message =
      some "styler down" ∧
    (run_generation_pipeline envC4 0 coreC4).core.variants = coreC4.variants ∧
    (run_generation_pipeline envC4 0 coreC4).core.items = coreC4.items ∧
    (run_generation_pipeline envC4 0 coreC4).jobruns =
      [{ post_id := 4, stage := .download, status := .succeeded,
         finished_at := some 0 },
       { post_id := 4, stage := .analyze, status := .succeeded,
         finished_at := some 0 },
       { post_id := 4, stage := .style, status := .failed,
         error_code := some "styling_error", error_message := some "styler down",
         finished_at := some 0 }] :=
  generation_style_failure envC4 0 coreC4
    ⟨["ref1.jpg"], some "cap", some "#h"⟩ "ref1.jpg" [] 0 "styler down"
    (by decide) rfl rfl rfl rfl (by decide)

theorem reelVariationsLoop_append (call : String → Except VeoErr String)
    (l1 l2 : List String) :
    reelVariationsLoop call (l1 ++ l2) =
      ((reelVariationsLoop call l1).1 ++ (reelVariationsLoop call l2).1,
       (reelVariationsLoop call l1).2 ++ (reelVariationsLoop call l2).2) := by
  induction l1 with
  | nil => simp [reelVariationsLoop]
  | cons m ms ih =>
      simp only [List.cons_append, reelVariationsLoop, ih]
      cases call m with
      | ok r =>
          by_cases hr : r = "" <;> simp [hr, ih]
      | error e => simp [ih]

theorem reelVariationsLoop_all_ok (call : String → Except VeoErr String)
    (path : String → String) (ms : List String)
    (h : ∀ m ∈ ms, call m = .ok (path m) ∧ path m ≠ "") :
    reelVariationsLoop call ms = (ms.map path, []) := by
  induction ms with
  | nil => rfl
  | cons m ms ih =>
      obtain ⟨hcall, hne⟩ := h m (List.mem_cons_self m ms)
      simp only [reelVariationsLoop, ih (fun x hx => h x (List.mem_cons_of_mem m hx)),
        hcall, List.map_cons]
      simp [hne]

theorem reelVariationsLoop_all_err (call : String → Except VeoErr String)
    (errOf : String → VeoErr) (ms : List String)
    (h : ∀ m ∈ ms, call m = .error (errOf m)) :
    reelVariationsLoop call ms =
      ([], ms.map (fun m => "[" ++ m ++ "] " ++ (errOf m).toStr)) := by
  induction ms with
  | nil => rfl
  | cons m ms ih =>
      simp only [reelVariationsLoop, ih (fun x hx => h x (List.mem_cons_of_mem m hx)),
        h m (List.mem_cons_self m ms), List.map_cons]

theorem joinSep_mem_infix (sep : String) :
    ∀ (l : List String) (s : String), s ∈ l → s.data <:+: (joinSep sep l).data
  | [], s, h => absurd h (List.not_mem_nil s)
  | [x], s, h => by
      rcases List.mem_singleton.mp h with rfl
      exact ⟨[], [], by simp [joinSep]⟩
  | x :: y :: xs, s, h => by
      rcases List.mem_cons.mp h with rfl | h'
      · exact ⟨[], sep.data ++ (joinSep sep (y :: xs)).data, by
          simp [joinSep, String.data_append]⟩
      · obtain ⟨p, q, hpq⟩ := joinSep_mem_infix sep (y :: xs) s h'
        exact ⟨x.data ++ sep.data ++ p, q, by
          simp only [joinSep, String.data_append, ← hpq]
          simp [List.append_assoc]⟩

/-- C5: with exactly one of the per-modifier calls failing with a typed
generation/timeout error (and at least one success), the variation loop
returns precisely the successful paths in order; with all calls failing,
it raises a single aggregated `VeoGenerationError` whose message
contains every individual failure reason. -/
theorem generate_reel_variations_resilience :
    (∀ (call : String → Except VeoErr String) (pre post : List String)
        (bad : String) (e : VeoErr) (path : String → String),
      (∀ m ∈ pre ++ post, call m = .ok (path m) ∧ path m ≠ "") →
      call bad = .error e →
      pre ++ post ≠ [] →
      generate_reel_variations call (pre ++ bad :: post) =
        .ok ((pre ++ post).map path)) ∧
    (∀ (call : String → Except VeoErr String) (modifiers : List String)
        (errOf : String → VeoErr),
      modifiers ≠ [] →
      (∀ m ∈ modifiers, call m = .error (errOf m)) →
      ∃ agg : String,
        generate_reel_variations call modifiers = .error (.generation agg) ∧
        ∀ m ∈ modifiers, (errOf m).toStr.data <:+: agg.data) := by
  constructor
  · intro call pre post bad e path hok hbad hne
    have hpre : reelVariationsLoop call pre = (pre.map path, []) :=
      reelVariationsLoop_all_ok call path pre
        (fun m hm => hok m (List.mem_append_left post hm))
    have hpost : reelVariationsLoop call post = (post.map path, []) :=
      reelVariationsLoop_all_ok call path post
        (fun m hm => hok m (List.mem_append_right pre hm))
    have hloop : reelVariationsLoop call (pre ++ bad :: post) =
        (pre.map path ++ post.map path,
         ["[" ++ bad ++ "] " ++ e.toStr]) := by
      rw [reelVariationsLoop_append, hpre]
      simp only [reelVariationsLoop, hpost, hbad]
      simp
    have hmapne : pre.map path ++ post.map path ≠ [] := by
      simp only [ne_eq, List.append_eq_nil, List.map_eq_nil_iff]
      intro ⟨h1, h2⟩
      exact hne (by simp [h1, h2])
    simp only [generate_reel_variations, hloop]
    rw [if_neg (by simp [hmapne])]
    simp
  · intro call modifiers errOf hne hall
    have hloop := reelVariationsLoop_all_err call errOf modifiers hall
    have hfne : modifiers.map (fun m => "[" ++ m ++ "] " ++ (errOf m).toStr) ≠ [] := by
      simpa using hne
    refine ⟨"No video variation was successfully generated. Failure details: " ++
      joinSep " | " (modifiers.map (fun m => "[" ++ m ++ "] " ++ (errOf m).toStr)), ?_, ?_⟩
    · simp [generate_reel_variations, hloop, hfne]
    · intro m hm
      have h1 : (errOf m).toStr.data <:+:
          ("[" ++ m ++ "] " ++ (errOf m).toStr).data :=
        ⟨("[" ++ m ++ "] ").data, [], by simp [String.data_append]⟩
      have h2 : ("[" ++ m ++ "] " ++ (errOf m).toStr).data <:+:
          (joinSep " | " (modifiers.map (fun m => "[" ++ m ++ "] " ++ (errOf m).toStr))).data :=
        joinSep_mem_infix " | " _ _ (List.mem_map_of_mem _ hm)
      have h3 := h1.trans h2
      obtain ⟨p, q, hpq⟩ := h3
      exact ⟨"No video variation was successfully generated. Failure details: ".data ++ p,
        q, by simp only [String.data_append, ← hpq]; simp [List.append_assoc]⟩

/-- Concrete instantiation of `generate_reel_variations_resilience`:
two modifiers with one failing return the single success; two modifiers
both failing raise an aggregate containing both reasons. -/
theorem generate_reel_variations_resilience_witness :
    generate_reel_variations
      (fun m => if m = "B" then .error (.generation "errB") else .ok ("path-" ++ m))
      ["A", "B"] = .ok ["path-A"] ∧
    ∃ agg : String,
      generate_reel_variations
        (fun m => .error (.generation ("err-" ++ m))) ["X", "Y"] =
        .error (.generation agg) ∧
      ∀ m ∈ ["X", "Y"], ("err-" ++ m).data <:+: agg.data := by
  constructor
  · exact generate_reel_variations_resilience.1
      (fun m => if m = "B" then .error (.generation "errB") else .ok ("path-" ++ m))
      ["A"] [] "B" (.generation "errB") (fun m => "path-" ++ m)
      (by simp) (by simp) (by simp)
  · obtain ⟨agg, h1, h2⟩ := generate_reel_variations_resilience.2
      (fun m => .error (.generation ("err-" ++ m))) ["X", "Y"]
      (fun m => .generation ("err-" ++ m)) (by decide) (by simp)
    exact ⟨agg, h1, fun m hm => h2 m hm⟩

/-- C9: over presets totalling 15 s and 30 s, a requested 14 s selects
the 15-second preset, a requested 27 s selects the 30-second preset, and
in general the 15-second preset is selected exactly when it is strictly
nearer by absolute difference (a tie goes to the longer, 30-second
preset). -/
theorem select_ad_structure_spec :
    _select_ad_structure
      [("15_second_reel", [5, 10]), ("30_second_reel", [10, 10, 10])]
      "30_second_reel" (some 14) = "15_second_reel" ∧
    _select_ad_structure
      [("15_second_reel", [5, 10]), ("30_second_reel", [10, 10, 10])]
      "30_second_reel" (some 27) = "30_second_reel" ∧
    (∀ d : ℚ,
      (_select_ad_structure
        [("15_second_reel", [5, 10]), ("30_second_reel", [10, 10, 10])]
        "30_second_reel" (some d) = "15_second_reel" ↔ |15 - d| < |30 - d|) ∧
      (_select_ad_structure
        [("15_second_reel", [5, 10]), ("30_second_reel", [10, 10, 10])]
        "30_second_reel" (some d) = "30_second_reel" ↔ |30 - d| ≤ |15 - d|)) := by
  have hsel : ∀ d : ℚ, _select_ad_structure
      [("15_second_reel", [5, 10]), ("30_second_reel", [10, 10, 10])]
      "30_second_reel" (some d) =
      if |(30 : ℚ) - d| < |(15 : ℚ) - d| ∨ |(30 : ℚ) - d| = |(15 : ℚ) - d|
      then "30_second_reel" else "15_second_reel" := by
    intro d
    simp only [_select_ad_structure, _ad_structure_duration_seconds, List.foldl]
    norm_num
    split <;> rfl
  refine ⟨?_, ?_, ?_⟩
  · rw [hsel]
    rw [if_neg]
    push_neg
    constructor
    · rw [abs_of_pos (by norm_num : (0:ℚ) < 30 - 14), abs_of_pos (by norm_num : (0:ℚ) < 15 - 14)]
      norm_num
    · intro h
      rw [abs_of_pos (by norm_num : (0:ℚ) < 30 - 14), abs_of_pos (by norm_num : (0:ℚ) < 15 - 14)] at h
      norm_num at h
  · rw [hsel]
    rw [if_pos]
    left
    rw [abs_of_pos (by norm_num : (0:ℚ) < 30 - 27), abs_of_neg (by norm_num : (15:ℚ) - 27 < 0)]
    norm_num
  · intro d
    rw [hsel]
    rcases lt_trichotomy (|(30 : ℚ) - d|) (|(15 : ℚ) - d|) with h | h | h
    · rw [if_pos (Or.inl h)]
      constructor
      · constructor
        · intro he; exact absurd he (by decide)
        · intro hlt; exact absurd (lt_trans h hlt) (lt_irrefl _)
      · simp [le_of_lt h]
    · rw [if_pos (Or.inr h)]
      constructor
      · constructor
        · intro he; exact absurd he (by decide)
        · intro hlt; rw [h] at hlt; exact absurd hlt (lt_irrefl _)
      · simp [le_of_eq h]
    · rw [if_neg (by push_neg; exact ⟨le_of_lt h, fun he => absurd he (ne_of_gt h)⟩)]
      constructor
      · simp [h]
      · constructor
        · intro he; exact absurd he (by decide)
        · intro hle; exact absurd (lt_of_le_of_lt hle h) (lt_irrefl _)

end VakBot
